import Mathlib

/-!
Verification development for the pocketploy instance lifecycle manager
(backend/internal/services/instance_service.go, backend/internal/models
instance model, backend/internal/docker/client.go).

Strings from the Go side are modelled as Lean `String`/`List Char` over the
ASCII alphabet the service validates (`validateInstanceName` admits only
ASCII), so Go's byte length coincides with character count on every value
that matters here.  Timestamps are seconds as `Nat`; `time.AddDate(0, 0, d)`
on a UTC instant is `addDays` (d uniform 86400-second days).  Within one
operation every `time.Now()` call is modelled as the single instant `now` at
which the operation executes.

Database statements and Docker engine calls are external effects: each
operation takes an oracle fixing the outcome of every such call, returns the
Go function's result, the database state after the operation, and the trace
of engine/persistence events in program order.  The database itself is the
pair of the `instances` and `instances_archive` tables.
-/

/-! ### Naming engine: generateSlug (instance_service.go) -/

/-- ASCII lower-casing as `strings.ToLower` acts on the validated alphabet:
uppercase A-Z is shifted by 32, everything else is untouched. -/
def goToLower (c : Char) : Char :=
  if 65 ≤ c.toNat ∧ c.toNat ≤ 90 then Char.ofNat (c.toNat + 32) else c

/-- The slug alphabet `[a-z0-9-]` of the regexp `[^a-z0-9-]+` that
`generateSlug` strips. -/
def isSlugChar (c : Char) : Bool :=
  decide (97 ≤ c.toNat ∧ c.toNat ≤ 122) || decide (48 ≤ c.toNat ∧ c.toNat ≤ 57) ||
    decide (c.toNat = 45)

/-- `strings.ReplaceAll` for one-character patterns. -/
def replaceChar (pat sub : Char) (l : List Char) : List Char :=
  l.map fun c => if c = pat then sub else c

/-- The regexp rewrite `-+` → `-`: every run of hyphens becomes a single
hyphen. -/
def collapseHyphens : List Char → List Char
  | [] => []
  | [c] => [c]
  | c :: d :: rest =>
    if c == '-' && d == '-' then collapseHyphens (d :: rest)
    else c :: collapseHyphens (d :: rest)

/-- `strings.Trim(s, "-")`: hyphens dropped from both ends. -/
def trimHyphens (l : List Char) : List Char :=
  ((l.dropWhile fun c => c == '-').reverse.dropWhile fun c => c == '-').reverse

/-- `generateSlug` (instance_service.go): lower-case, spaces and underscores
to hyphens, strip everything outside `[a-z0-9-]`, collapse hyphen runs, trim
edge hyphens. -/
def generateSlug (name : List Char) : List Char :=
  trimHyphens (collapseHyphens (List.filter isSlugChar
    (replaceChar '_' '-' (replaceChar ' ' '-' (name.map goToLower)))))

/-- No two adjacent hyphens anywhere in the list (the shape `collapseHyphens`
establishes). -/
def noDD : List Char → Bool
  | [] => true
  | [_] => true
  | c :: d :: rest => !(c == '-' && d == '-') && noDD (d :: rest)

/-! ### Name validation (instance_service.go validateInstanceName) -/

deriving instance DecidableEq for Except

/-- One character of the Go regexp class `[a-zA-Z0-9\s\-_]`, where Go's `\s`
is `[\t\n\f\r ]` (code points 9, 10, 12, 13, 32). -/
def goNameChar (c : Char) : Bool :=
  decide (65 ≤ c.toNat ∧ c.toNat ≤ 90) || decide (97 ≤ c.toNat ∧ c.toNat ≤ 122) ||
    decide (48 ≤ c.toNat ∧ c.toNat ≤ 57) ||
    decide (c.toNat = 9) || decide (c.toNat = 10) || decide (c.toNat = 12) ||
    decide (c.toNat = 13) || decide (c.toNat = 32) ||
    decide (c.toNat = 45) || decide (c.toNat = 95)

/-- One character of the class the specification states for valid names:
letters, digits, space, underscore, hyphen (no other whitespace). -/
def specNameChar (c : Char) : Bool :=
  decide (65 ≤ c.toNat ∧ c.toNat ≤ 90) || decide (97 ≤ c.toNat ∧ c.toNat ≤ 122) ||
    decide (48 ≤ c.toNat ∧ c.toNat ≤ 57) ||
    decide (c.toNat = 32) || decide (c.toNat = 45) || decide (c.toNat = 95)

/-- Name validity exactly as the specification words it: length 3-100 and
every character in `[A-Za-z0-9 _-]`. -/
def specValidName (name : String) : Bool :=
  decide (3 ≤ name.data.length) && decide (name.data.length ≤ 100) &&
    name.data.all specNameChar

/-! ### Error and runtime-adapter types -/

/-- An error reported by the Docker engine, opaque to the service. -/
inductive DockerErr
  | err (msg : String)
deriving DecidableEq

/-- The distinct error returns of the service layer, one constructor per
`fmt.Errorf` site reached by the modelled operations; Go's `%w` wrapping is
modelled by the constructor carrying the wrapped adapter error. -/
inductive Err
  | instanceNotFound
  | nameLength
  | nameChars
  | quotaExceeded (limit : Nat)
  | subdomainConflict
  | insertFailed
  | createContainerFailed (e : DockerErr)
  | updateContainerInfoFailed
  | updateStatusFailed
  | noContainer
  | alreadyRunning
  | alreadyStopped
  | startContainerFailed (e : DockerErr)
  | stopContainerFailed (e : DockerErr)
  | restartContainerFailed (e : DockerErr)
  | archiveFailed
  | deleteRowFailed
  | logsFailed (e : DockerErr)
  | statsFailed (e : DockerErr)
deriving DecidableEq

/-- `validateInstanceName`: length 3-100 bytes, then the regexp
`^[a-zA-Z0-9\s\-_]+$`. Returns the error or `none` for a valid name. -/
def validateInstanceName (name : String) : Option Err :=
  if name.data.length < 3 ∨ name.data.length > 100 then some .nameLength
  else if name.data.isEmpty || !name.data.all goNameChar then some .nameChars
  else none

/-! ### Data model (models/instance.go) -/

/-- The instance status constants of models/instance.go. -/
inductive Status
  | creating
  | running
  | stopped
  | failed
deriving DecidableEq

/-- One row of the `instances` table. -/
structure Instance where
  id : Nat
  userId : Nat
  name : String
  slug : String
  subdomain : String
  containerId : Option String
  containerName : Option String
  status : Status
  dataPath : String
  createdAt : Nat
  updatedAt : Nat
  lastAccessedAt : Option Nat
deriving DecidableEq

/-- One row of the `instances_archive` table. -/
structure ArchivedInstance where
  id : Nat
  userId : Nat
  name : String
  slug : String
  subdomain : String
  containerId : Option String
  containerName : Option String
  originalStatus : Status
  dataPath : String
  createdAt : Nat
  updatedAt : Nat
  lastAccessedAt : Option Nat
  deletedAt : Nat
  deletedByUserId : Nat
  deletionReason : String
  dataAvailable : Bool
  dataRetainedUntil : Nat
  dataSizeMB : Nat
  originalSubdomain : String
deriving DecidableEq

/-- The persistent state: the live table and the archive table. -/
structure DB where
  instances : List Instance
  archive : List ArchivedInstance
deriving DecidableEq

/-! ### Queries and row updates (models/instance.go) -/

/-- `FindInstanceByID`: `SELECT ... FROM instances WHERE id = $1`. -/
def findInstanceByID (db : DB) (id : Nat) : Option Instance :=
  db.instances.find? fun i => i.id == id

/-- `FindInstanceBySubdomain`: `SELECT ... WHERE subdomain = $1`. -/
def findInstanceBySubdomain (db : DB) (subdomain : String) : Option Instance :=
  db.instances.find? fun i => i.subdomain == subdomain

/-- `CountUserInstances`: `SELECT COUNT(*) FROM instances WHERE user_id = $1
AND status != 'failed'` — failed instances are excluded from the count. -/
def countUserInstances (db : DB) (userId : Nat) : Nat :=
  (db.instances.filter fun i => i.userId == userId && !(i.status == Status.failed)).length

/-- Modelled from the claim's words (C1): a count of every non-deleted
instance of the owner regardless of status — every row of the live table,
Failed included.  Stated only to compare against `countUserInstances`. -/
def specQuotaCount (db : DB) (userId : Nat) : Nat :=
  (db.instances.filter fun i => i.userId == userId).length

/-- `Instance.UpdateStatus`: `UPDATE instances SET status, updated_at WHERE id`. -/
def setStatus (db : DB) (id : Nat) (st : Status) (now : Nat) : DB :=
  { db with instances := db.instances.map fun i =>
      if i.id == id then { i with status := st, updatedAt := now } else i }

/-- `Instance.UpdateContainerInfo`: set container id and name. -/
def setContainerInfo (db : DB) (id : Nat) (cid cname : String) (now : Nat) : DB :=
  { db with instances := db.instances.map fun i =>
      if i.id == id then { i with containerId := some cid, containerName := some cname,
                                  updatedAt := now } else i }

/-- `Instance.UpdateLastAccessed`. -/
def setLastAccessed (db : DB) (id : Nat) (now : Nat) : DB :=
  { db with instances := db.instances.map fun i =>
      if i.id == id then { i with lastAccessedAt := some now } else i }

/-- The `INSERT INTO instances` of `Instance.Create`. -/
def insertInstance (db : DB) (i : Instance) : DB :=
  { db with instances := db.instances ++ [i] }

/-- `Instance.Delete`: `DELETE FROM instances WHERE id = $1` (hard delete). -/
def removeInstance (db : DB) (id : Nat) : DB :=
  { db with instances := db.instances.filter fun i => !(i.id == id) }

/-- The `INSERT INTO instances_archive` of `ArchiveInstance`. -/
def insertArchive (db : DB) (a : ArchivedInstance) : DB :=
  { db with archive := db.archive ++ [a] }

/-- The status of the row with the given id, if present. -/
def instStatus (db : DB) (id : Nat) : Option Status :=
  (findInstanceByID db id).map fun i => i.status

/-! ### Archival (models/instance.go ArchiveInstance) -/

/-- `time.AddDate(0, 0, d)` on a UTC instant in seconds. -/
def addDays (t : Nat) (d : Nat) : Nat :=
  t + d * 86400

/-- The parameters of `models.ArchiveInstance`. -/
structure ArchiveInstanceParams where
  inst : Instance
  deletedByUserId : Nat
  deletionReason : String
  dataSizeMB : Nat
  dataRetentionDays : Nat
deriving DecidableEq

/-- The archived record `models.ArchiveInstance` builds: a full snapshot of
the instance plus deletion metadata; retention days default to 30 when given
as 0; `data_available` starts true; `data_retained_until` is the call
instant plus the retention window.  Both `time.Now()` calls of the Go
function are modelled as the single call instant `now`. -/
def archiveInstance (p : ArchiveInstanceParams) (now : Nat) : ArchivedInstance :=
  let retentionDays := if p.dataRetentionDays = 0 then 30 else p.dataRetentionDays
  { id := p.inst.id, userId := p.inst.userId, name := p.inst.name, slug := p.inst.slug,
    subdomain := p.inst.subdomain, containerId := p.inst.containerId,
    containerName := p.inst.containerName, originalStatus := p.inst.status,
    dataPath := p.inst.dataPath, createdAt := p.inst.createdAt,
    updatedAt := p.inst.updatedAt, lastAccessedAt := p.inst.lastAccessedAt,
    deletedAt := now, deletedByUserId := p.deletedByUserId,
    deletionReason := p.deletionReason, dataAvailable := true,
    dataRetainedUntil := addDays now retentionDays, dataSizeMB := p.dataSizeMB,
    originalSubdomain := p.inst.subdomain }

/-! ### Operation results, events and oracles -/

/-- One Docker-engine call or persistence write, with its outcome, in program
order. -/
inductive Event
  | dockerCreate (cname : String) (ok : Bool)
  | dockerStart (cid : String) (ok : Bool)
  | dockerStop (cid : String) (ok : Bool)
  | dockerRestart (cid : String) (ok : Bool)
  | dockerRemove (cid : String) (ok : Bool)
  | dockerLogs (cid : String) (ok : Bool)
  | dockerStats (cid : String) (ok : Bool)
  | archiveWrite (ok : Bool)
  | statusWrite (id : Nat) (st : Status) (ok : Bool)
  | rowDelete (id : Nat) (ok : Bool)
deriving DecidableEq

/-- What one service operation produces: the Go return value, the database
afterwards, and the events it performed. -/
structure OpResult (α : Type) where
  res : Except Err α
  db : DB
  trace : List Event
deriving DecidableEq

/-- A destructive step: stopping or removing the workload, or deleting the
live row. -/
def destructiveEvent : Event → Bool
  | .dockerStop _ _ => true
  | .dockerRemove _ _ => true
  | .rowDelete _ _ => true
  | _ => false

/-- A successful archive insert. -/
def archiveSuccess : Event → Bool
  | .archiveWrite true => true
  | _ => false

/-- Helper for `destrAfterArchive`: `seen` records whether a successful
archive insert has already happened. -/
def destrAfterArchiveAux (seen : Bool) : List Event → Bool
  | [] => true
  | e :: rest => (seen || !destructiveEvent e) && destrAfterArchiveAux (seen || archiveSuccess e) rest

/-- Every destructive event of the trace is preceded by a successful archive
insert. -/
def destrAfterArchive (t : List Event) : Bool :=
  destrAfterArchiveAux false t

/-- A container-creation call. -/
def isDockerCreate : Event → Bool
  | .dockerCreate _ _ => true
  | _ => false

/-- The id-to-status projection of the live table. -/
def statusesOf (db : DB) : List (Nat × Status) :=
  db.instances.map fun i => (i.id, i.status)

/-- Outcome of the best-effort `UpdateLastAccessed` write inside `GetInstance`. -/
structure GetOracle where
  lastAccessOk : Bool
deriving DecidableEq

/-- Outcomes for `StartInstance` / `StopInstance` / `RestartInstance`: the
embedded `GetInstance`, the Docker engine call (`none` = success), and the
status update. -/
structure LifecycleOracle where
  get : GetOracle
  dockerRes : Option DockerErr
  updateOk : Bool
deriving DecidableEq

/-- Outcomes for `CreateInstance`: the id the insert returns, the insert, the
container creation (`Except` of the engine error or the new container id),
the container-info update, the best-effort cleanup remove, the best-effort
update to Failed, and the update to Running. -/
structure CreateOracle where
  newId : Nat
  insertOk : Bool
  createRes : Except DockerErr String
  updateInfoOk : Bool
  removeOk : Bool
  updateFailOk : Bool
  updateRunOk : Bool
deriving DecidableEq

/-- Outcomes for `DeleteInstance`: the best-effort `os.Stat` data size, the
archive insert, the best-effort container stop and remove, and the live-row
delete. -/
structure DeleteOracle where
  dataSizeMB : Nat
  archiveOk : Bool
  stopOk : Bool
  removeOk : Bool
  deleteOk : Bool
deriving DecidableEq

/-- Outcomes for `GetInstanceLogs`. -/
structure LogsOracle where
  get : GetOracle
  logsRes : Except DockerErr String
deriving DecidableEq

/-- docker.ContainerStats. -/
structure ContainerStats where
  containerId : String
  status : String
  health : String
  startedAt : String
  createdAt : String
deriving DecidableEq

/-- Outcomes for `GetInstanceStats`. -/
structure StatsOracle where
  get : GetOracle
  statsRes : Except DockerErr ContainerStats
deriving DecidableEq

/-- The configuration fields the modelled operations read. -/
structure Config where
  env : String
  baseDomain : String
  instancesBasePath : String
  maxInstancesPerUser : Nat
deriving DecidableEq

/-- services.CreateInstanceRequest. -/
structure CreateInstanceRequest where
  userId : Nat
  username : String
  name : String
  adminEmail : String
  adminPassword : String
deriving DecidableEq

/-- services.CreateInstanceResponse. -/
structure CreateInstanceResponse where
  inst : Instance
  url : String
deriving DecidableEq

/-! ### Service operations (instance_service.go) -/

/-- `generateSubdomain`: `"{username}-{slug}.{baseDomain}"`. -/
def generateSubdomain (cfg : Config) (username slug : String) : String :=
  username ++ "-" ++ slug ++ "." ++ cfg.baseDomain

/-- `generateContainerName`: `"pb-{username}-{slug}"`. -/
def generateContainerName (username slug : String) : String :=
  "pb-" ++ username ++ "-" ++ slug

/-- `generateStoragePath`: `filepath.Join(base, username, slug)`. -/
def generateStoragePath (cfg : Config) (username slug : String) : String :=
  cfg.instancesBasePath ++ "/" ++ username ++ "/" ++ slug

/-- `GetInstance`: find by id, reject with the not-found error when the row's
owner differs from the caller, then best-effort update of last-accessed. -/
def getInstance (db : DB) (o : GetOracle) (now : Nat) (instanceID userID : Nat) :
    OpResult Instance :=
  match findInstanceByID db instanceID with
  | none => ⟨.error .instanceNotFound, db, []⟩
  | some inst =>
    if inst.userId ≠ userID then ⟨.error .instanceNotFound, db, []⟩
    else if o.lastAccessOk then
      ⟨.ok { inst with lastAccessedAt := some now }, setLastAccessed db instanceID now, []⟩
    else ⟨.ok inst, db, []⟩

/-- `StartInstance`: get (with ownership check), require a container, reject
when already running, start the container, then set status Running. -/
def startInstance (db : DB) (o : LifecycleOracle) (now : Nat) (instanceID userID : Nat) :
    OpResult Unit :=
  match getInstance db o.get now instanceID userID with
  | ⟨.error e, db1, _⟩ => ⟨.error e, db1, []⟩
  | ⟨.ok inst, db1, _⟩ =>
    match inst.containerId with
    | none => ⟨.error .noContainer, db1, []⟩
    | some cid =>
      if cid = "" then ⟨.error .noContainer, db1, []⟩
      else if inst.status = .running then ⟨.error .alreadyRunning, db1, []⟩
      else
        match o.dockerRes with
        | some e => ⟨.error (.startContainerFailed e), db1, [.dockerStart cid false]⟩
        | none =>
          if o.updateOk then
            ⟨.ok (), setStatus db1 instanceID .running now,
              [.dockerStart cid true, .statusWrite instanceID .running true]⟩
          else
            ⟨.error .updateStatusFailed, db1,
              [.dockerStart cid true, .statusWrite instanceID .running false]⟩

/-- `StopInstance`: get (with ownership check), require a container, reject
when already stopped, stop the container, then set status Stopped. -/
def stopInstance (db : DB) (o : LifecycleOracle) (now : Nat) (instanceID userID : Nat) :
    OpResult Unit :=
  match getInstance db o.get now instanceID userID with
  | ⟨.error e, db1, _⟩ => ⟨.error e, db1, []⟩
  | ⟨.ok inst, db1, _⟩ =>
    match inst.containerId with
    | none => ⟨.error .noContainer, db1, []⟩
    | some cid =>
      if cid = "" then ⟨.error .noContainer, db1, []⟩
      else if inst.status = .stopped then ⟨.error .alreadyStopped, db1, []⟩
      else
        match o.dockerRes with
        | some e => ⟨.error (.stopContainerFailed e), db1, [.dockerStop cid false]⟩
        | none =>
          if o.updateOk then
            ⟨.ok (), setStatus db1 instanceID .stopped now,
              [.dockerStop cid true, .statusWrite instanceID .stopped true]⟩
          else
            ⟨.error .updateStatusFailed, db1,
              [.dockerStop cid true, .statusWrite instanceID .stopped false]⟩

/-- `RestartInstance`: get (with ownership check), require a container,
restart the container (no status precondition), then set status Running. -/
def restartInstance (db : DB) (o : LifecycleOracle) (now : Nat) (instanceID userID : Nat) :
    OpResult Unit :=
  match getInstance db o.get now instanceID userID with
  | ⟨.error e, db1, _⟩ => ⟨.error e, db1, []⟩
  | ⟨.ok inst, db1, _⟩ =>
    match inst.containerId with
    | none => ⟨.error .noContainer, db1, []⟩
    | some cid =>
      if cid = "" then ⟨.error .noContainer, db1, []⟩
      else
        match o.dockerRes with
        | some e => ⟨.error (.restartContainerFailed e), db1, [.dockerRestart cid false]⟩
        | none =>
          if o.updateOk then
            ⟨.ok (), setStatus db1 instanceID .running now,
              [.dockerRestart cid true, .statusWrite instanceID .running true]⟩
          else
            ⟨.error .updateStatusFailed, db1,
              [.dockerRestart cid true, .statusWrite instanceID .running false]⟩

/-- `GetInstanceLogs`: get (with ownership check), require a container, read
the logs. -/
def getInstanceLogs (db : DB) (o : LogsOracle) (now : Nat) (instanceID userID : Nat)
    (_tailArg : String) : OpResult String :=
  match getInstance db o.get now instanceID userID with
  | ⟨.error e, db1, _⟩ => ⟨.error e, db1, []⟩
  | ⟨.ok inst, db1, _⟩ =>
    match inst.containerId with
    | none => ⟨.error .noContainer, db1, []⟩
    | some cid =>
      if cid = "" then ⟨.error .noContainer, db1, []⟩
      else
        match o.logsRes with
        | .error e => ⟨.error (.logsFailed e), db1, [.dockerLogs cid false]⟩
        | .ok text => ⟨.ok text, db1, [.dockerLogs cid true]⟩

/-- `GetInstanceStats`: get (with ownership check), require a container, read
the stats. -/
def getInstanceStats (db : DB) (o : StatsOracle) (now : Nat) (instanceID userID : Nat) :
    OpResult ContainerStats :=
  match getInstance db o.get now instanceID userID with
  | ⟨.error e, db1, _⟩ => ⟨.error e, db1, []⟩
  | ⟨.ok inst, db1, _⟩ =>
    match inst.containerId with
    | none => ⟨.error .noContainer, db1, []⟩
    | some cid =>
      if cid = "" then ⟨.error .noContainer, db1, []⟩
      else
        match o.statsRes with
        | .error e => ⟨.error (.statsFailed e), db1, [.dockerStats cid false]⟩
        | .ok st => ⟨.ok st, db1, [.dockerStats cid true]⟩

/-- `DeleteInstance`: find and ownership-check, archive the instance
(`models.ArchiveInstance`, retention 30 days, reason "manual"), best-effort
stop and remove of the container (failures logged, never aborting), then
delete the live row.  The archive insert and the live-row delete are two
independent statements, exactly as in the source (no transaction). -/
def deleteInstance (db : DB) (o : DeleteOracle) (now : Nat) (instanceID userID : Nat) :
    OpResult Unit :=
  match findInstanceByID db instanceID with
  | none => ⟨.error .instanceNotFound, db, []⟩
  | some inst =>
    if inst.userId ≠ userID then ⟨.error .instanceNotFound, db, []⟩
    else if o.archiveOk then
      let archived := archiveInstance ⟨inst, userID, "manual", o.dataSizeMB, 30⟩ now
      let db1 := insertArchive db archived
      let stopEvents : List Event :=
        match inst.containerId with
        | none => []
        | some cid =>
          if cid = "" then []
          else [.dockerStop cid o.stopOk, .dockerRemove cid o.removeOk]
      if o.deleteOk then
        ⟨.ok (), removeInstance db1 instanceID,
          .archiveWrite true :: stopEvents ++ [.rowDelete instanceID true]⟩
      else
        ⟨.error .deleteRowFailed, db1,
          .archiveWrite true :: stopEvents ++ [.rowDelete instanceID false]⟩
    else ⟨.error .archiveFailed, db, [.archiveWrite false]⟩

/-- `CreateInstance`: validate the name, check the per-owner quota, derive
slug/subdomain and reject on a subdomain conflict, insert the Creating row,
create the container (on engine error: best-effort update to Failed and
return the error), persist the container binding, update to Running, and
build the URL. -/
def createInstance (cfg : Config) (db : DB) (o : CreateOracle) (now : Nat)
    (req : CreateInstanceRequest) : OpResult CreateInstanceResponse :=
  match validateInstanceName req.name with
  | some e => ⟨.error e, db, []⟩
  | none =>
    if countUserInstances db req.userId ≥ cfg.maxInstancesPerUser then
      ⟨.error (.quotaExceeded cfg.maxInstancesPerUser), db, []⟩
    else
      let slug : String := ⟨generateSlug req.name.data⟩
      let subdomain := generateSubdomain cfg req.username slug
      match findInstanceBySubdomain db subdomain with
      | some _ => ⟨.error .subdomainConflict, db, []⟩
      | none =>
        let cname := generateContainerName req.username slug
        let storagePath := generateStoragePath cfg req.username slug
        if o.insertOk then
          let inst : Instance :=
            { id := o.newId, userId := req.userId, name := req.name, slug := slug,
              subdomain := subdomain, containerId := none, containerName := some cname,
              status := .creating, dataPath := storagePath, createdAt := now,
              updatedAt := now, lastAccessedAt := none }
          let db1 := insertInstance db inst
          match o.createRes with
          | .error e =>
            let db2 := if o.updateFailOk then setStatus db1 o.newId .failed now else db1
            ⟨.error (.createContainerFailed e), db2,
              [.dockerCreate cname false, .statusWrite o.newId .failed o.updateFailOk]⟩
          | .ok cid =>
            if o.updateInfoOk then
              let db2 := setContainerInfo db1 o.newId cid cname now
              if o.updateRunOk then
                let url := (if cfg.env = "production" then "https" else "http") ++ "://" ++ subdomain
                let respInst := { inst with containerId := some cid, status := Status.running,
                                            updatedAt := now }
                ⟨.ok ⟨respInst, url⟩,
                  setStatus db2 o.newId .running now,
                  [.dockerCreate cname true, .statusWrite o.newId .running true]⟩
              else
                ⟨.error .updateStatusFailed, db2,
                  [.dockerCreate cname true, .statusWrite o.newId .running false]⟩
            else
              let db2 := if o.updateFailOk then setStatus db1 o.newId .failed now else db1
              ⟨.error .updateContainerInfoFailed, db2,
                [.dockerCreate cname true, .dockerRemove cid o.removeOk,
                 .statusWrite o.newId .failed o.updateFailOk]⟩
        else ⟨.error .insertFailed, db, []⟩

/-! ### Routing rule builder (docker/client.go buildTraefikLabels) -/

/-- The label key `traefik.http.routers.{r}.rule`. -/
def ruleKey (r : String) : String :=
  "traefik.http.routers." ++ r ++ ".rule"

/-- The label key `traefik.http.routers.{r}.entrypoints`. -/
def entrypointsKey (r : String) : String :=
  "traefik.http.routers." ++ r ++ ".entrypoints"

/-- The label key `traefik.http.services.{r}.loadbalancer.server.port`. -/
def serviceKey (r : String) : String :=
  "traefik.http.services." ++ r ++ ".loadbalancer.server.port"

/-- The label key `traefik.http.routers.{r}.middlewares`. -/
def middlewaresKey (r : String) : String :=
  "traefik.http.routers." ++ r ++ ".middlewares"

/-- The label key `traefik.http.middlewares.{r}-redirect.redirectscheme.scheme`. -/
def redirectSchemeKey (r : String) : String :=
  "traefik.http.middlewares." ++ r ++ "-redirect.redirectscheme.scheme"

/-- The label key `traefik.http.routers.{r}-secure.rule`. -/
def secureRuleKey (r : String) : String :=
  "traefik.http.routers." ++ r ++ "-secure.rule"

/-- The label key `traefik.http.routers.{r}-secure.entrypoints`. -/
def secureEntrypointsKey (r : String) : String :=
  "traefik.http.routers." ++ r ++ "-secure.entrypoints"

/-- The label key `traefik.http.routers.{r}-secure.tls`. -/
def secureTlsKey (r : String) : String :=
  "traefik.http.routers." ++ r ++ "-secure.tls"

/-- The host-match expression `` Host(`{subdomain}`) ``. -/
def hostRule (subdomain : String) : String :=
  "Host(\x60" ++ subdomain ++ "\x60)"

/-- `buildTraefikLabels`: the base labels (enable, the router's host rule on
entrypoint `web`, the backend port, the Docker network), plus, only in
production, the HTTP-to-HTTPS redirect middleware on the same router and the
`-secure` router on entrypoint `websecure` with TLS. -/
def buildTraefikLabels (routerName subdomain traefikNetwork : String)
    (production : Bool) : List (String × String) :=
  [("traefik.enable", "true"),
   (ruleKey routerName, hostRule subdomain),
   (entrypointsKey routerName, "web"),
   (serviceKey routerName, "8090"),
   ("traefik.docker.network", traefikNetwork)] ++
  (if production then
    [(middlewaresKey routerName, routerName ++ "-redirect"),
     (redirectSchemeKey routerName, "https"),
     (secureRuleKey routerName, hostRule subdomain),
     (secureEntrypointsKey routerName, "websecure"),
     (secureTlsKey routerName, "true")]
   else [])

/-! ### Concrete sample values used by witnesses and counterexamples -/

/-- A sample configuration: development mode, quota of one instance. -/
def cfgX : Config :=
  { env := "dev", baseDomain := "x.io", instancesBasePath := "/d", maxInstancesPerUser := 1 }

/-- A Failed instance of user 7. -/
def instFailedX : Instance :=
  { id := 1, userId := 7, name := "Old App", slug := "old-app",
    subdomain := "alice-old-app.x.io", containerId := none,
    containerName := some "pb-alice-old-app", status := .failed,
    dataPath := "/d/alice/old-app", createdAt := 0, updatedAt := 0,
    lastAccessedAt := none }

/-- A Running instance of user 7 with a live container. -/
def instRunX : Instance :=
  { id := 1, userId := 7, name := "Run App", slug := "run-app",
    subdomain := "alice-run-app.x.io", containerId := some "c1",
    containerName := some "pb-alice-run-app", status := .running,
    dataPath := "/d/alice/run-app", createdAt := 0, updatedAt := 0,
    lastAccessedAt := none }

/-- A Stopped instance of user 7 with a container. -/
def instStopX : Instance :=
  { instRunX with status := .stopped }

/-- A database holding only the Failed instance. -/
def dbFailedX : DB := ⟨[instFailedX], []⟩

/-- A database holding only the Running instance. -/
def dbRunX : DB := ⟨[instRunX], []⟩

/-- A database holding only the Stopped instance. -/
def dbStopX : DB := ⟨[instStopX], []⟩

/-- A sample creation request of user 7. -/
def reqX : CreateInstanceRequest :=
  { userId := 7, username := "alice", name := "New App", adminEmail := "a@b.c",
    adminPassword := "pw" }

/-- An all-success creation oracle. -/
def oCreateX : CreateOracle :=
  { newId := 2, insertOk := true, createRes := .ok "cid2", updateInfoOk := true,
    removeOk := true, updateFailOk := true, updateRunOk := true }

/-- An all-success deletion oracle. -/
def oDelX : DeleteOracle :=
  { dataSizeMB := 0, archiveOk := true, stopOk := true, removeOk := true, deleteOk := true }

/-- A deletion oracle whose live-row delete fails after the archive insert
succeeded. -/
def oDelRowFailX : DeleteOracle :=
  { oDelX with deleteOk := false }

/-- A successful last-accessed write. -/
def ogX : GetOracle := ⟨true⟩

/-- An all-success lifecycle oracle. -/
def olcX : LifecycleOracle :=
  { get := ogX, dockerRes := none, updateOk := true }


/-! ## Helper lemmas: the slug pipeline -/

/-- Mapping a function that fixes every element of a list is the identity. -/
theorem map_eq_self_of {α : Type} (l : List α) (f : α → α) (h : ∀ c ∈ l, f c = c) :
    l.map f = l := by
  induction l with
  | nil => rfl
  | cons c rest ih =>
    rw [List.map_cons, h c (List.mem_cons_self c rest),
      ih fun x hx => h x (List.mem_cons_of_mem c hx)]

/-- Lower-casing fixes every slug character. -/
theorem goToLower_slug {c : Char} (h : isSlugChar c = true) : goToLower c = c := by
  simp only [isSlugChar, Bool.or_eq_true, decide_eq_true_eq] at h
  unfold goToLower
  rw [if_neg (by omega)]

/-- A slug character is not a space. -/
theorem slugChar_ne_space {c : Char} (h : isSlugChar c = true) : c ≠ ' ' :=
  fun he => absurd (he ▸ h) (by decide)

/-- A slug character is not an underscore. -/
theorem slugChar_ne_underscore {c : Char} (h : isSlugChar c = true) : c ≠ '_' :=
  fun he => absurd (he ▸ h) (by decide)

/-- `replaceChar` is the identity when the pattern character is absent. -/
theorem replaceChar_eq_self (pat sub : Char) (l : List Char) (h : ∀ c ∈ l, c ≠ pat) :
    replaceChar pat sub l = l :=
  map_eq_self_of l _ fun c hc => if_neg (h c hc)

/-- Unfolding `collapseHyphens` on a double cons, hyphen-pair case. -/
theorem collapseHyphens_cons₂_pos {c d : Char} {rest : List Char}
    (h : (c == '-' && d == '-') = true) :
    collapseHyphens (c :: d :: rest) = collapseHyphens (d :: rest) := by
  simp only [collapseHyphens]
  rw [if_pos h]

/-- Unfolding `collapseHyphens` on a double cons, other case. -/
theorem collapseHyphens_cons₂_neg {c d : Char} {rest : List Char}
    (h : ¬(c == '-' && d == '-') = true) :
    collapseHyphens (c :: d :: rest) = c :: collapseHyphens (d :: rest) := by
  simp only [collapseHyphens]
  rw [if_neg h]

/-- Unfolding `noDD` on a double cons. -/
theorem noDD_cons₂ (c d : Char) (rest : List Char) :
    noDD (c :: d :: rest) = (!(c == '-' && d == '-') && noDD (d :: rest)) :=
  rfl

/-- `noDD` passes to the tail. -/
theorem noDD_cons {c : Char} {l : List Char} (h : noDD (c :: l) = true) :
    noDD l = true := by
  cases l with
  | nil => rfl
  | cons d rest =>
    rw [noDD_cons₂, Bool.and_eq_true] at h
    exact h.2

/-- `collapseHyphens` keeps the head of the list. -/
theorem collapseHyphens_cons (a : Char) (l : List Char) :
    ∃ t, collapseHyphens (a :: l) = a :: t := by
  induction l generalizing a with
  | nil => exact ⟨[], rfl⟩
  | cons d rest ih =>
    obtain ⟨t, ht⟩ := ih d
    by_cases hd : (a == '-' && d == '-') = true
    · have ha : a = d := by
        simp only [Bool.and_eq_true, beq_iff_eq] at hd
        rw [hd.1, hd.2]
      exact ⟨t, by rw [collapseHyphens_cons₂_pos hd, ht, ha]⟩
    · exact ⟨d :: t, by rw [collapseHyphens_cons₂_neg hd, ht]⟩

/-- Every element of `collapseHyphens l` is an element of `l`. -/
theorem mem_collapseHyphens {a : Char} {l : List Char} (h : a ∈ collapseHyphens l) :
    a ∈ l := by
  induction l using collapseHyphens.induct with
  | case1 => simp [collapseHyphens] at h
  | case2 c => simpa [collapseHyphens] using h
  | case3 c d rest hcd ih =>
    rw [collapseHyphens_cons₂_pos hcd] at h
    exact List.mem_cons_of_mem c (ih h)
  | case4 c d rest hcd ih =>
    rw [collapseHyphens_cons₂_neg hcd] at h
    rcases List.mem_cons.1 h with h1 | h2
    · exact h1 ▸ List.mem_cons_self a _
    · exact List.mem_cons_of_mem c (ih h2)

/-- `collapseHyphens` leaves no two adjacent hyphens. -/
theorem noDD_collapseHyphens (l : List Char) : noDD (collapseHyphens l) = true := by
  induction l using collapseHyphens.induct with
  | case1 => rfl
  | case2 c => rfl
  | case3 c d rest hcd ih =>
    rw [collapseHyphens_cons₂_pos hcd]
    exact ih
  | case4 c d rest hcd ih =>
    obtain ⟨t, ht⟩ := collapseHyphens_cons d rest
    rw [collapseHyphens_cons₂_neg hcd, ht]
    rw [ht] at ih
    rw [noDD_cons₂, Bool.and_eq_true]
    refine ⟨?_, ih⟩
    rw [Bool.eq_false_iff.mpr hcd]
    rfl

/-- `collapseHyphens` is the identity on lists with no adjacent hyphens. -/
theorem collapseHyphens_eq_self {l : List Char} (h : noDD l = true) :
    collapseHyphens l = l := by
  induction l using collapseHyphens.induct with
  | case1 => rfl
  | case2 c => rfl
  | case3 c d rest hcd ih =>
    exfalso
    rw [noDD_cons₂, Bool.and_eq_true] at h
    rw [hcd] at h
    exact absurd h.1 (by decide)
  | case4 c d rest hcd ih =>
    rw [collapseHyphens_cons₂_neg hcd, ih (noDD_cons h)]

/-- Dropping the tail of an append keeps `noDD`. -/
theorem noDD_append_left {l₁ l₂ : List Char} (h : noDD (l₁ ++ l₂) = true) :
    noDD l₁ = true := by
  induction l₁ using noDD.induct with
  | case1 => rfl
  | case2 c => rfl
  | case3 c d rest ih =>
    have h' : noDD (c :: d :: (rest ++ l₂)) = true := by simpa using h
    rw [noDD_cons₂, Bool.and_eq_true] at h' ⊢
    refine ⟨h'.1, ih ?_⟩
    simpa using h'.2

/-- Dropping the front of an append keeps `noDD`. -/
theorem noDD_append_right {l₁ l₂ : List Char} (h : noDD (l₁ ++ l₂) = true) :
    noDD l₂ = true := by
  induction l₁ with
  | nil => simpa using h
  | cons c rest ih => exact ih (noDD_cons (by simpa using h))

/-- `dropWhile` keeps `noDD` (its result is a suffix). -/
theorem noDD_dropWhile (p : Char → Bool) {l : List Char} (h : noDD l = true) :
    noDD (l.dropWhile p) = true := by
  have h2 : noDD (l.takeWhile p ++ l.dropWhile p) = true := by
    rw [List.takeWhile_append_dropWhile]
    exact h
  exact noDD_append_right h2

/-- The head of a `dropWhile` result fails the predicate. -/
theorem dropWhile_head_false {α : Type} (p : α → Bool) {l : List α} {a : α}
    (h : (l.dropWhile p).head? = some a) : p a = false := by
  induction l with
  | nil => simp [List.dropWhile] at h
  | cons c rest ih =>
    rw [List.dropWhile_cons] at h
    by_cases hc : p c = true
    · rw [if_pos hc] at h
      exact ih h
    · rw [if_neg hc] at h
      have hca : c = a := by simpa using h
      rw [← hca]
      exact Bool.eq_false_iff.mpr hc

/-- `dropWhile` is the identity when the head fails the predicate. -/
theorem dropWhile_eq_self_of {α : Type} {p : α → Bool} {l : List α}
    (h : ∀ a, l.head? = some a → p a = false) : l.dropWhile p = l := by
  cases l with
  | nil => rfl
  | cons c rest =>
    have hc : p c = false := h c rfl
    rw [List.dropWhile_cons, if_neg (by rw [hc]; exact Bool.false_ne_true)]

/-- `trimHyphens l` is a front part of `l.dropWhile (· == '-')`. -/
theorem trimHyphens_append (l : List Char) :
    ∃ t, trimHyphens l ++ t = l.dropWhile fun c => c == '-' := by
  unfold trimHyphens
  set u := l.dropWhile fun c => c == '-' with hu
  refine ⟨(u.reverse.takeWhile fun c => c == '-').reverse, ?_⟩
  have h1 := List.takeWhile_append_dropWhile (fun c => c == '-') u.reverse
  calc (u.reverse.dropWhile fun c => c == '-').reverse ++
        (u.reverse.takeWhile fun c => c == '-').reverse
      = ((u.reverse.takeWhile fun c => c == '-') ++
          (u.reverse.dropWhile fun c => c == '-')).reverse := by
        rw [List.reverse_append]
    _ = u.reverse.reverse := by rw [h1]
    _ = u := List.reverse_reverse u

/-- The last character of `trimHyphens l` is not a hyphen. -/
theorem trimHyphens_getLast {l : List Char} {a : Char}
    (h : (trimHyphens l).getLast? = some a) : (a == '-') = false := by
  unfold trimHyphens at h
  rw [List.getLast?_reverse] at h
  exact dropWhile_head_false (fun c => c == '-') h

/-- The first character of `trimHyphens l` is not a hyphen. -/
theorem trimHyphens_head {l : List Char} {a : Char}
    (h : (trimHyphens l).head? = some a) : (a == '-') = false := by
  obtain ⟨t, ht⟩ := trimHyphens_append l
  rcases he : trimHyphens l with _ | ⟨c, rest⟩
  · rw [he] at h
    simp at h
  · rw [he] at h ht
    have hca : c = a := by simpa using h
    have hh : (l.dropWhile fun x => x == '-').head? = some c := by
      rw [← ht]
      rfl
    rw [← hca]
    exact dropWhile_head_false (fun c => c == '-') hh

/-- `trimHyphens` is the identity when neither end is a hyphen. -/
theorem trimHyphens_eq_self {l : List Char}
    (h1 : ∀ a, l.head? = some a → (a == '-') = false)
    (h2 : ∀ a, l.getLast? = some a → (a == '-') = false) :
    trimHyphens l = l := by
  unfold trimHyphens
  rw [dropWhile_eq_self_of h1]
  rw [dropWhile_eq_self_of fun a ha => h2 a (List.head?_reverse l ▸ ha)]
  exact List.reverse_reverse l

/-- Every character of `generateSlug x` is a slug character. -/
theorem generateSlug_all_slug (x : List Char) :
    ∀ c ∈ generateSlug x, isSlugChar c = true := by
  intro c hc
  unfold generateSlug at hc
  obtain ⟨t, ht⟩ := trimHyphens_append
    (collapseHyphens (List.filter isSlugChar
      (replaceChar '_' '-' (replaceChar ' ' '-' (x.map goToLower)))))
  have h1 : c ∈ trimHyphens (collapseHyphens (List.filter isSlugChar
      (replaceChar '_' '-' (replaceChar ' ' '-' (x.map goToLower))))) ++ t :=
    List.mem_append.2 (Or.inl hc)
  rw [ht] at h1
  have h2 : c ∈ collapseHyphens (List.filter isSlugChar
      (replaceChar '_' '-' (replaceChar ' ' '-' (x.map goToLower)))) :=
    (List.dropWhile_sublist fun ch => ch == '-').subset h1
  exact List.of_mem_filter (mem_collapseHyphens h2)

/-- `generateSlug x` has no two adjacent hyphens. -/
theorem generateSlug_noDD (x : List Char) : noDD (generateSlug x) = true := by
  unfold generateSlug
  obtain ⟨t, ht⟩ := trimHyphens_append
    (collapseHyphens (List.filter isSlugChar
      (replaceChar '_' '-' (replaceChar ' ' '-' (x.map goToLower)))))
  have hd : noDD ((collapseHyphens (List.filter isSlugChar
      (replaceChar '_' '-' (replaceChar ' ' '-' (x.map goToLower))))).dropWhile
        fun ch => ch == '-') = true :=
    noDD_dropWhile _ (noDD_collapseHyphens _)
  rw [← ht] at hd
  exact noDD_append_left hd

/-- Claim C7: the slug derivation is idempotent — deriving a slug from a
slug returns it unchanged. -/
theorem c7_generateSlug_idempotent (x : List Char) :
    generateSlug (generateSlug x) = generateSlug x := by
  have hall := generateSlug_all_slug x
  have hhead : ∀ a, (generateSlug x).head? = some a → (a == '-') = false := by
    intro a ha
    unfold generateSlug at ha
    exact trimHyphens_head ha
  have hlast : ∀ a, (generateSlug x).getLast? = some a → (a == '-') = false := by
    intro a ha
    unfold generateSlug at ha
    exact trimHyphens_getLast ha
  conv_lhs => rw [generateSlug]
  rw [map_eq_self_of _ _ fun c hc => goToLower_slug (hall c hc)]
  rw [replaceChar_eq_self _ _ _ fun c hc => slugChar_ne_space (hall c hc)]
  rw [replaceChar_eq_self _ _ _ fun c hc => slugChar_ne_underscore (hall c hc)]
  rw [List.filter_eq_self.2 hall]
  rw [collapseHyphens_eq_self (generateSlug_noDD x)]
  exact trimHyphens_eq_self hhead hlast

/-! ## Name validation: C8 -/

/-- Counterexample to claim C8 at a concrete input: the name `"ab\tc"`
contains a tab, so the claim's character class `[A-Za-z0-9 _-]` rejects it,
yet `validateInstanceName` accepts it (Go's `\s` also matches tab, newline,
form feed and carriage return). -/
theorem c8_counterexample :
    validateInstanceName "ab\tc" = none ∧ specValidName "ab\tc" = false := by
  decide

/-- Claim C8 as amended: a name passes validation exactly when its length is
3-100 and every character is in `[A-Za-z0-9\s_-]` with `\s` the Go regexp
whitespace class (tab, newline, form feed, carriage return, space); and
`CreateInstance` rejects exactly with the validation error, touching
nothing. -/
theorem c8_validateInstanceName_amended :
    (∀ name : String, validateInstanceName name = none ↔
      (3 ≤ name.data.length ∧ name.data.length ≤ 100 ∧
        ∀ c ∈ name.data, goNameChar c = true)) ∧
    (∀ (cfg : Config) (db : DB) (o : CreateOracle) (now : Nat)
      (req : CreateInstanceRequest) (e : Err),
      validateInstanceName req.name = some e →
      createInstance cfg db o now req = ⟨.error e, db, []⟩) := by
  constructor
  · intro name
    unfold validateInstanceName
    split_ifs with h1 h2
    · simp only [reduceCtorEq, false_iff]
      rintro ⟨ha, hb, -⟩
      omega
    · simp only [reduceCtorEq, false_iff]
      rintro ⟨ha, hb, hc⟩
      rw [Bool.or_eq_true] at h2
      rcases h2 with he | hne
      · have : name.data = [] := List.isEmpty_iff.1 he
        rw [this] at ha
        simp at ha
      · have : name.data.all goNameChar = true := List.all_eq_true.2 hc
        rw [this] at hne
        simp at hne
    · simp only [true_iff]
      push_neg at h1
      refine ⟨by omega, by omega, ?_⟩
      intro c hc
      have hne : ¬(name.data.isEmpty = true ∨ (!name.data.all goNameChar) = true) := by
        intro hor
        exact h2 (by rw [Bool.or_eq_true]; exact hor)
      push_neg at hne
      have hall : name.data.all goNameChar = true := by
        rcases hb : name.data.all goNameChar with _ | _
        · exact absurd (by rw [hb]; rfl) hne.2
        · rfl
      exact List.all_eq_true.1 hall c hc
  · intro cfg db o now req e h
    unfold createInstance
    rw [h]

/-! ## Quota enforcement: C1 -/

/-- Counterexample to claim C1 at a concrete input: user 7 owns one Failed
instance and the limit is 1, so under the claim's counting (Failed counts)
the owner is at the limit and `Create` must be rejected with the quota error
and persist nothing; the code counts 0 (Failed excluded), proceeds, and
persists a second row. -/
theorem c1_counterexample :
    specQuotaCount dbFailedX 7 ≥ cfgX.maxInstancesPerUser ∧
    (createInstance cfgX dbFailedX oCreateX 0 reqX).res ≠
      .error (.quotaExceeded cfgX.maxInstancesPerUser) ∧
    (createInstance cfgX dbFailedX oCreateX 0 reqX).db.instances.length = 2 := by
  decide

/-- Claim C1 as amended: for a request that passes name validation, when the
owner's count of non-Failed live rows (Creating, Running and Stopped count;
Failed does not) is at or above the limit, `CreateInstance` returns exactly
the quota error and leaves the database untouched — no row is persisted. -/
theorem c1_quota_enforced :
    ∀ (cfg : Config) (db : DB) (o : CreateOracle) (now : Nat)
      (req : CreateInstanceRequest),
      validateInstanceName req.name = none →
      countUserInstances db req.userId ≥ cfg.maxInstancesPerUser →
      createInstance cfg db o now req =
        ⟨.error (.quotaExceeded cfg.maxInstancesPerUser), db, []⟩ := by
  intro cfg db o now req hval hq
  unfold createInstance
  rw [hval]
  rw [if_pos hq]

/-- Witness for the amended C1: user 7 already has one Running instance and
the limit is 1, so creation is rejected with the quota error and the
database is unchanged. -/
theorem c1_quota_enforced_witness :
    createInstance cfgX dbRunX oCreateX 0 reqX =
      ⟨.error (.quotaExceeded 1), dbRunX, []⟩ :=
  c1_quota_enforced cfgX dbRunX oCreateX 0 reqX (by decide) (by decide)

/-! ## Delete atomicity: C2 -/

/-- Claim C2 evaluated at its failing input: deleting the Running instance of
user 7 where the archive insert succeeds and the subsequent live-row delete
fails.  `DeleteInstance` runs the two statements independently (no
transaction), so the execution ends with the instance archived AND still
present in the live table — the partial state the claim says can never
occur. -/
theorem c2_delete_not_atomic :
    (deleteInstance dbRunX oDelRowFailX 100 1 7).res = .error .deleteRowFailed ∧
    ((deleteInstance dbRunX oDelRowFailX 100 1 7).db.instances.filter
      fun i => i.id == 1).length = 1 ∧
    ((deleteInstance dbRunX oDelRowFailX 100 1 7).db.archive.filter
      fun a => a.id == 1).length = 1 := by
  decide

/-! ## Delete ordering and archival record: C3, C4 -/

/-- A find for an id over a list filtered to exclude that id returns
nothing. -/
theorem find?_filter_ne (l : List Instance) (idv : Nat) :
    (l.filter fun i => !(i.id == idv)).find? (fun i => i.id == idv) = none := by
  apply List.find?_eq_none.2
  intro x hx
  have hne := List.of_mem_filter hx
  simp only [Bool.not_eq_true'] at hne
  simp [hne]

/-- Claim C3: in every execution of `DeleteInstance`, (1) no destructive step
(container stop, container remove, live-row delete) occurs before a
successful archive insert; (2) the outcomes of the container stop and remove
never change the operation's result or the final database — failures there
are logged, never aborting; (3) for an owned instance, when the archive
insert and the row delete succeed, the operation succeeds and the live row
is gone, whatever the stop/remove outcomes were. -/
theorem c3_archive_before_teardown :
    ∀ (db : DB) (o : DeleteOracle) (now instanceID userID : Nat),
      destrAfterArchive (deleteInstance db o now instanceID userID).trace = true ∧
      (∀ b₁ b₂ : Bool,
        (deleteInstance db { o with stopOk := b₁, removeOk := b₂ } now instanceID userID).res =
          (deleteInstance db o now instanceID userID).res ∧
        (deleteInstance db { o with stopOk := b₁, removeOk := b₂ } now instanceID userID).db =
          (deleteInstance db o now instanceID userID).db) ∧
      (∀ inst : Instance,
        findInstanceByID db instanceID = some inst → inst.userId = userID →
        o.archiveOk = true → o.deleteOk = true →
        (deleteInstance db o now instanceID userID).res = .ok () ∧
        findInstanceByID (deleteInstance db o now instanceID userID).db instanceID = none) := by
  intro db o now instanceID userID
  obtain ⟨ds, ao, so, ro, dk⟩ := o
  refine ⟨?_, ?_, ?_⟩
  · unfold deleteInstance
    cases hf : findInstanceByID db instanceID with
    | none => rfl
    | some inst =>
      dsimp only
      by_cases hu : inst.userId ≠ userID
      · simp only [if_pos hu]
        rfl
      · simp only [if_neg hu]
        cases ao with
        | false => rfl
        | true =>
          cases hc : inst.containerId with
          | none => cases dk <;> rfl
          | some cid =>
            dsimp only
            by_cases hce : cid = ""
            · simp only [if_pos hce]
              cases dk <;> rfl
            · simp only [if_neg hce]
              cases dk <;> rfl
  · intro b₁ b₂
    unfold deleteInstance
    cases hf : findInstanceByID db instanceID with
    | none => exact ⟨rfl, rfl⟩
    | some inst =>
      dsimp only
      by_cases hu : inst.userId ≠ userID
      · simp only [if_pos hu]
        exact ⟨trivial, trivial⟩
      · simp only [if_neg hu]
        cases ao with
        | false => exact ⟨rfl, rfl⟩
        | true =>
          cases hc : inst.containerId with
          | none => cases dk <;> exact ⟨rfl, rfl⟩
          | some cid =>
            dsimp only
            by_cases hce : cid = ""
            · simp only [if_pos hce]
              cases dk <;> constructor <;> first | rfl | trivial
            · simp only [if_neg hce]
              cases dk <;> constructor <;> first | rfl | trivial
  · intro inst hf hu ha hd
    have ha' : ao = true := ha
    have hd' : dk = true := hd
    subst ha'
    subst hd'
    unfold deleteInstance
    rw [hf]
    dsimp only
    simp only [if_neg (show ¬inst.userId ≠ userID from fun hne => hne hu)]
    refine ⟨rfl, ?_⟩
    show (removeInstance (insertArchive db _) instanceID).instances.find?
      (fun i => i.id == instanceID) = none
    unfold removeInstance insertArchive
    dsimp only
    exact find?_filter_ne db.instances instanceID

/-- Witness for C3: deleting the Running instance of user 7 with both the
container stop and the container remove failing still succeeds and removes
the live row. -/
theorem c3_witness :
    (deleteInstance dbRunX { oDelX with stopOk := false, removeOk := false } 100 1 7).res =
      .ok () ∧
    findInstanceByID
      (deleteInstance dbRunX { oDelX with stopOk := false, removeOk := false } 100 1 7).db 1 =
      none :=
  (c3_archive_before_teardown dbRunX { oDelX with stopOk := false, removeOk := false }
    100 1 7).2.2 instRunX (by decide) (by decide) (by decide) (by decide)

/-- Claim C4: every archived record added by a `DeleteInstance` execution has
`data_available = true` and a retention deadline of exactly its deletion
time plus 30 days; in particular the deadline is at or after the deletion
time. -/
theorem c4_archival_retention :
    ∀ (db : DB) (o : DeleteOracle) (now instanceID userID : Nat)
      (a : ArchivedInstance),
      a ∈ (deleteInstance db o now instanceID userID).db.archive →
      a ∉ db.archive →
      a.dataAvailable = true ∧ a.dataRetainedUntil = addDays a.deletedAt 30 ∧
        a.deletedAt ≤ a.dataRetainedUntil := by
  intro db o now instanceID userID a hmem hnew
  obtain ⟨ds, ao, so, ro, dk⟩ := o
  have key : ∀ inst : Instance,
      a = archiveInstance ⟨inst, userID, "manual", ds, 30⟩ now →
      a.dataAvailable = true ∧ a.dataRetainedUntil = addDays a.deletedAt 30 ∧
        a.deletedAt ≤ a.dataRetainedUntil := by
    intro inst he
    subst he
    refine ⟨rfl, rfl, ?_⟩
    exact Nat.le_add_right now (30 * 86400)
  unfold deleteInstance at hmem
  cases hf : findInstanceByID db instanceID with
  | none =>
    rw [hf] at hmem
    exact absurd hmem hnew
  | some inst =>
    rw [hf] at hmem
    dsimp only at hmem
    by_cases hu : inst.userId ≠ userID
    · simp only [if_pos hu] at hmem
      exact absurd hmem hnew
    · simp only [if_neg hu] at hmem
      cases ao with
      | false => exact absurd hmem hnew
      | true =>
        simp only [removeInstance, insertArchive] at hmem
        cases dk with
        | false =>
          try dsimp only at hmem
          rcases List.mem_append.1 hmem with h1 | h2
          · exact absurd h1 hnew
          · exact key inst (by simpa using h2)
        | true =>
          try dsimp only at hmem
          rcases List.mem_append.1 hmem with h1 | h2
          · exact absurd h1 hnew
          · exact key inst (by simpa using h2)

/-- Witness for C4: the record archived by deleting the Running instance of
user 7 at time 100 has the availability flag set and deadline 100 plus 30
days. -/
theorem c4_witness :
    (archiveInstance ⟨instRunX, 7, "manual", 0, 30⟩ 100).dataAvailable = true ∧
    (archiveInstance ⟨instRunX, 7, "manual", 0, 30⟩ 100).dataRetainedUntil =
      addDays (archiveInstance ⟨instRunX, 7, "manual", 0, 30⟩ 100).deletedAt 30 ∧
    (archiveInstance ⟨instRunX, 7, "manual", 0, 30⟩ 100).deletedAt ≤
      (archiveInstance ⟨instRunX, 7, "manual", 0, 30⟩ 100).dataRetainedUntil :=
  c4_archival_retention dbRunX oDelX 100 1 7 _ (by decide) (by decide)

/-! ## Create failure path: C5 -/

/-- A per-id row rewrite commutes with the id lookup when the rewrite keeps
ids. -/
theorem find?_map_ite (l : List Instance) (idv : Nat) (f : Instance → Instance)
    (hid : ∀ i, (f i).id = i.id) :
    (l.map fun i => if i.id == idv then f i else i).find? (fun i => i.id == idv) =
      (l.find? fun i => i.id == idv).map f := by
  induction l with
  | nil => rfl
  | cons j rest ih =>
    rw [List.map_cons]
    by_cases hj : (j.id == idv) = true
    · rw [if_pos hj,
        @List.find?_cons_of_pos _ (fun i => i.id == idv) (f j) _
          (show ((f j).id == idv) = true by rw [hid j]; exact hj),
        @List.find?_cons_of_pos _ (fun i => i.id == idv) j _ hj]
      rfl
    · rw [if_neg hj,
        @List.find?_cons_of_neg _ (fun i => i.id == idv) j _ hj,
        @List.find?_cons_of_neg _ (fun i => i.id == idv) j _ hj, ih]

/-- Looking up a fresh id after appending a row with that id finds the new
row. -/
theorem find?_append_fresh (l : List Instance) (inst : Instance) (idv : Nat)
    (h : ∀ i ∈ l, i.id ≠ idv) (hid : inst.id = idv) :
    (l ++ [inst]).find? (fun i => i.id == idv) = some inst := by
  induction l with
  | nil =>
    rw [List.nil_append]
    exact @List.find?_cons_of_pos _ (fun i => i.id == idv) inst _ (by simp [hid])
  | cons j rest ih =>
    rw [List.cons_append,
      @List.find?_cons_of_neg _ (fun i => i.id == idv) j _ (by
        simp [h j (List.mem_cons_self j rest)])]
    exact ih fun i hi => h i (List.mem_cons_of_mem j hi)

/-- After `setStatus`, the looked-up row carries the new status. -/
theorem instStatus_setStatus_of_found {db : DB} {idv : Nat} {j : Instance}
    (h : findInstanceByID db idv = some j) (st : Status) (now : Nat) :
    instStatus (setStatus db idv st now) idv = some st := by
  unfold instStatus findInstanceByID setStatus
  dsimp only
  rw [find?_map_ite db.instances idv
    (fun i => { i with status := st, updatedAt := now }) (fun i => rfl)]
  unfold findInstanceByID at h
  rw [h]
  rfl

/-- Inserting a fresh row and then writing its status leaves the row
retrievable with the written status. -/
theorem instStatus_insert_setStatus (db : DB) (inst : Instance) (idv : Nat)
    (hfresh : ∀ i ∈ db.instances, i.id ≠ idv) (hid : inst.id = idv)
    (st : Status) (now : Nat) :
    instStatus (setStatus (insertInstance db inst) idv st now) idv = some st := by
  have hfound : findInstanceByID (insertInstance db inst) idv = some inst := by
    unfold findInstanceByID insertInstance
    dsimp only
    exact find?_append_fresh db.instances inst idv hfresh hid
  exact instStatus_setStatus_of_found hfound st now

/-- Claim C5: for a `Create` request that passes validation, quota, and
subdomain-conflict checks and whose row insert succeeds, when the container
creation returns an engine error, the operation returns exactly that error
(wrapped), the engine-create call is made exactly once (no retry), a status
write to Failed is issued, and — whenever that best-effort write succeeds —
the persisted row ends in Failed status. -/
theorem c5_create_container_error :
    ∀ (cfg : Config) (db : DB) (o : CreateOracle) (now : Nat)
      (req : CreateInstanceRequest) (e : DockerErr),
      validateInstanceName req.name = none →
      countUserInstances db req.userId < cfg.maxInstancesPerUser →
      findInstanceBySubdomain db
        (generateSubdomain cfg req.username ⟨generateSlug req.name.data⟩) = none →
      o.insertOk = true →
      o.createRes = .error e →
      (∀ i ∈ db.instances, i.id ≠ o.newId) →
      (createInstance cfg db o now req).res = .error (.createContainerFailed e) ∧
      (createInstance cfg db o now req).trace.countP isDockerCreate = 1 ∧
      Event.statusWrite o.newId .failed o.updateFailOk ∈ (createInstance cfg db o now req).trace ∧
      (o.updateFailOk = true →
        instStatus (createInstance cfg db o now req).db o.newId = some .failed) := by
  intro cfg db o now req e hval hq hsub hins hcre hfresh
  obtain ⟨newId, insertOk, createRes, updateInfoOk, removeOk, updateFailOk, updateRunOk⟩ := o
  have hins' : insertOk = true := hins
  have hcre' : createRes = .error e := hcre
  subst hins'
  subst hcre'
  unfold createInstance
  rw [hval]
  dsimp only
  rw [if_neg (by omega)]
  rw [hsub]
  dsimp only
  refine ⟨rfl, rfl, ?_, ?_⟩
  · cases updateFailOk <;> simp
  · intro hup
    have hup' : updateFailOk = true := hup
    subst hup'
    exact instStatus_insert_setStatus db _ newId hfresh rfl .failed now

/-- Witness for C5: creating "New App" for user 7 with a failing engine
returns the wrapped engine error, performs one create call, and the row is
persisted as Failed. -/
theorem c5_witness :
    (createInstance cfgX dbFailedX { oCreateX with createRes := .error (.err "boom") }
      0 reqX).res = .error (.createContainerFailed (.err "boom")) ∧
    (createInstance cfgX dbFailedX { oCreateX with createRes := .error (.err "boom") }
      0 reqX).trace.countP isDockerCreate = 1 ∧
    Event.statusWrite 2 .failed true ∈
      (createInstance cfgX dbFailedX { oCreateX with createRes := .error (.err "boom") }
        0 reqX).trace ∧
    (true = true →
      instStatus (createInstance cfgX dbFailedX
        { oCreateX with createRes := .error (.err "boom") } 0 reqX).db 2 = some .failed) :=
  c5_create_container_error cfgX dbFailedX
    { oCreateX with createRes := .error (.err "boom") } 0 reqX (.err "boom")
    (by decide) (by decide) (by decide) (by decide) (by decide) (by decide)

/-! ## Start/Stop transitions: C6 -/

/-- `GetInstance` performs no engine call. -/
theorem getInstance_trace (db : DB) (o : GetOracle) (now instanceID userID : Nat) :
    (getInstance db o now instanceID userID).trace = [] := by
  unfold getInstance
  cases hf : findInstanceByID db instanceID with
  | none => rfl
  | some inst =>
    dsimp only
    by_cases hu : inst.userId ≠ userID
    · rw [if_pos hu]
    · rw [if_neg hu]
      by_cases hl : o.lastAccessOk = true
      · rw [if_pos hl]
      · rw [if_neg hl]

/-- A successful `GetInstance` is exactly its result, database and empty
trace. -/
theorem getInstance_ok_eq {db : DB} {o : GetOracle} {now instanceID userID : Nat}
    {inst : Instance} (h : (getInstance db o now instanceID userID).res = .ok inst) :
    getInstance db o now instanceID userID =
      ⟨.ok inst, (getInstance db o now instanceID userID).db, []⟩ := by
  have ht := getInstance_trace db o now instanceID userID
  calc getInstance db o now instanceID userID
      = ⟨(getInstance db o now instanceID userID).res,
         (getInstance db o now instanceID userID).db,
         (getInstance db o now instanceID userID).trace⟩ := rfl
    _ = ⟨.ok inst, (getInstance db o now instanceID userID).db, []⟩ := by rw [h, ht]

/-- The last-accessed write keeps every id-status pair. -/
theorem statusesOf_setLastAccessed (db : DB) (idv now : Nat) :
    statusesOf (setLastAccessed db idv now) = statusesOf db := by
  unfold statusesOf setLastAccessed
  dsimp only
  rw [List.map_map]
  apply List.map_congr_left
  intro i hi
  by_cases hid : (i.id == idv) = true
  · simp only [Function.comp, if_pos hid]
  · simp only [Function.comp, if_neg hid]

/-- `GetInstance` never changes any row's status. -/
theorem getInstance_db_statuses (db : DB) (o : GetOracle) (now instanceID userID : Nat) :
    statusesOf (getInstance db o now instanceID userID).db = statusesOf db := by
  unfold getInstance
  cases hf : findInstanceByID db instanceID with
  | none => rfl
  | some inst =>
    dsimp only
    by_cases hu : inst.userId ≠ userID
    · rw [if_pos hu]
    · rw [if_neg hu]
      by_cases hl : o.lastAccessOk = true
      · rw [if_pos hl]
        exact statusesOf_setLastAccessed db instanceID now
      · rw [if_neg hl]

/-- After a successful `GetInstance`, the requested row is still retrievable
from the resulting database. -/
theorem getInstance_ok_found {db : DB} {o : GetOracle} {now instanceID userID : Nat}
    {inst : Instance} (h : (getInstance db o now instanceID userID).res = .ok inst) :
    ∃ j, findInstanceByID (getInstance db o now instanceID userID).db instanceID = some j := by
  unfold getInstance at h ⊢
  cases hf : findInstanceByID db instanceID with
  | none =>
    rw [hf] at h
    exact absurd h (by simp)
  | some j =>
    rw [hf] at h
    dsimp only at h ⊢
    by_cases hu : j.userId ≠ userID
    · rw [if_pos hu] at h
      exact absurd h (by simp)
    · rw [if_neg hu] at h ⊢
      by_cases hl : o.lastAccessOk = true
      · rw [if_pos hl]
        refine ⟨{ j with lastAccessedAt := some now }, ?_⟩
        show findInstanceByID (setLastAccessed db instanceID now) instanceID = _
        unfold findInstanceByID setLastAccessed
        dsimp only
        rw [find?_map_ite db.instances instanceID
          (fun i => { i with lastAccessedAt := some now }) (fun i => rfl)]
        unfold findInstanceByID at hf
        rw [hf]
        rfl
      · rw [if_neg hl]
        exact ⟨j, hf⟩

/-- Claim C6: for an owned instance with a bound container, `Start` when
already Running and `Stop` when already Stopped are rejected as caller
errors with no engine call; an engine failure surfaces the wrapped engine
error and leaves every persisted status unchanged; on engine success (and a
successful status write) the status becomes Running and Stopped
respectively. -/
theorem c6_start_stop_transitions :
    ∀ (db : DB) (og : GetOracle) (now instanceID userID : Nat) (inst : Instance)
      (cid : String),
      (getInstance db og now instanceID userID).res = .ok inst →
      inst.containerId = some cid →
      cid ≠ "" →
      (∀ o : LifecycleOracle, o.get = og →
        (inst.status = .running →
          startInstance db o now instanceID userID =
            ⟨.error .alreadyRunning, (getInstance db og now instanceID userID).db, []⟩) ∧
        (inst.status = .stopped →
          stopInstance db o now instanceID userID =
            ⟨.error .alreadyStopped, (getInstance db og now instanceID userID).db, []⟩) ∧
        (∀ e : DockerErr, o.dockerRes = some e →
          (inst.status ≠ .running →
            (startInstance db o now instanceID userID).res =
              .error (.startContainerFailed e) ∧
            statusesOf (startInstance db o now instanceID userID).db = statusesOf db) ∧
          (inst.status ≠ .stopped →
            (stopInstance db o now instanceID userID).res =
              .error (.stopContainerFailed e) ∧
            statusesOf (stopInstance db o now instanceID userID).db = statusesOf db)) ∧
        (o.dockerRes = none → o.updateOk = true →
          (inst.status ≠ .running →
            (startInstance db o now instanceID userID).res = .ok () ∧
            instStatus (startInstance db o now instanceID userID).db instanceID =
              some .running) ∧
          (inst.status ≠ .stopped →
            (stopInstance db o now instanceID userID).res = .ok () ∧
            instStatus (stopInstance db o now instanceID userID).db instanceID =
              some .stopped))) := by
  intro db og now instanceID userID inst cid hres hcid hcne o ho
  have hg := getInstance_ok_eq hres
  have hstat := getInstance_db_statuses db og now instanceID userID
  obtain ⟨j, hjfound⟩ := getInstance_ok_found hres
  refine ⟨?_, ?_, ?_, ?_⟩
  · intro hrun
    unfold startInstance
    rw [ho, hg]
    dsimp only
    rw [hcid]
    dsimp only
    rw [if_neg hcne, if_pos hrun]
  · intro hstop
    unfold stopInstance
    rw [ho, hg]
    dsimp only
    rw [hcid]
    dsimp only
    rw [if_neg hcne, if_pos hstop]
  · intro e he
    constructor
    · intro hnr
      unfold startInstance
      rw [ho, hg]
      dsimp only
      rw [hcid]
      dsimp only
      rw [if_neg hcne, if_neg hnr, he]
      exact ⟨rfl, hstat⟩
    · intro hns
      unfold stopInstance
      rw [ho, hg]
      dsimp only
      rw [hcid]
      dsimp only
      rw [if_neg hcne, if_neg hns, he]
      exact ⟨rfl, hstat⟩
  · intro hdn hup
    constructor
    · intro hnr
      unfold startInstance
      rw [ho, hg]
      dsimp only
      rw [hcid]
      dsimp only
      rw [if_neg hcne, if_neg hnr, hdn]
      dsimp only
      rw [if_pos hup]
      exact ⟨rfl, instStatus_setStatus_of_found hjfound .running now⟩
    · intro hns
      unfold stopInstance
      rw [ho, hg]
      dsimp only
      rw [hcid]
      dsimp only
      rw [if_neg hcne, if_neg hns, hdn]
      dsimp only
      rw [if_pos hup]
      exact ⟨rfl, instStatus_setStatus_of_found hjfound .stopped now⟩

/-- Witness for C6: on the Stopped instance of user 7, `Stop` is rejected as
already stopped with no engine call, while `Start` succeeds and persists
Running. -/
theorem c6_witness :
    stopInstance dbStopX olcX 5 1 7 =
      ⟨.error .alreadyStopped, (getInstance dbStopX ogX 5 1 7).db, []⟩ ∧
    (startInstance dbStopX olcX 5 1 7).res = .ok () ∧
    instStatus (startInstance dbStopX olcX 5 1 7).db 1 = some .running := by
  have h := c6_start_stop_transitions dbStopX ogX 5 1 7
    { instStopX with lastAccessedAt := some 5 } "c1" (by decide) (by decide) (by decide)
  have h2 := h olcX rfl
  exact ⟨h2.2.1 (by decide), ((h2.2.2.2 rfl rfl).1 (by decide)).1,
    ((h2.2.2.2 rfl rfl).1 (by decide)).2⟩

/-! ## Cross-tenant isolation: C10 -/

/-- When no instance with the requested id belongs to the caller,
`GetInstance` answers exactly as for a nonexistent id: the not-found error,
an untouched database, and no engine call. -/
theorem getInstance_not_owner {db : DB} {o : GetOracle} {now instanceID callerID : Nat}
    (h : ∀ i ∈ db.instances, i.id = instanceID → i.userId ≠ callerID) :
    getInstance db o now instanceID callerID = ⟨.error .instanceNotFound, db, []⟩ := by
  unfold getInstance
  cases hf : findInstanceByID db instanceID with
  | none => rfl
  | some inst =>
    dsimp only
    have hf' : db.instances.find? (fun i => i.id == instanceID) = some inst := hf
    have hmem := List.mem_of_find?_eq_some hf'
    have hid := List.find?_some hf'
    rw [if_pos (h inst hmem (by simpa using hid))]

/-- Claim C10: for every instance-scoped operation (`Get`, `Start`, `Stop`,
`Restart`, `Delete`, `Logs`, `Stats`), when no instance with the requested
id is owned by the caller — the id belongs to another user or does not
exist — the operation returns exactly the same `instance not found` error, an
unchanged database and no engine call: another user's instance is
indistinguishable from a nonexistent one and is never read or mutated. -/
theorem c10_cross_tenant_isolation :
    ∀ (db : DB) (now instanceID callerID : Nat) (og : GetOracle)
      (ol : LifecycleOracle) (od : DeleteOracle) (olog : LogsOracle)
      (ost : StatsOracle) (tailArg : String),
      (∀ i ∈ db.instances, i.id = instanceID → i.userId ≠ callerID) →
      getInstance db og now instanceID callerID = ⟨.error .instanceNotFound, db, []⟩ ∧
      startInstance db ol now instanceID callerID = ⟨.error .instanceNotFound, db, []⟩ ∧
      stopInstance db ol now instanceID callerID = ⟨.error .instanceNotFound, db, []⟩ ∧
      restartInstance db ol now instanceID callerID = ⟨.error .instanceNotFound, db, []⟩ ∧
      deleteInstance db od now instanceID callerID = ⟨.error .instanceNotFound, db, []⟩ ∧
      getInstanceLogs db olog now instanceID callerID tailArg =
        ⟨.error .instanceNotFound, db, []⟩ ∧
      getInstanceStats db ost now instanceID callerID = ⟨.error .instanceNotFound, db, []⟩ := by
  intro db now instanceID callerID og ol od olog ost tailArg h
  have hdel : deleteInstance db od now instanceID callerID =
      ⟨.error .instanceNotFound, db, []⟩ := by
    unfold deleteInstance
    cases hf : findInstanceByID db instanceID with
    | none => rfl
    | some inst =>
      dsimp only
      have hf' : db.instances.find? (fun i => i.id == instanceID) = some inst := hf
      have hmem := List.mem_of_find?_eq_some hf'
      have hid := List.find?_some hf'
      rw [if_pos (h inst hmem (by simpa using hid))]
  refine ⟨getInstance_not_owner h, ?_, ?_, ?_, hdel, ?_, ?_⟩
  · unfold startInstance
    rw [getInstance_not_owner h]
  · unfold stopInstance
    rw [getInstance_not_owner h]
  · unfold restartInstance
    rw [getInstance_not_owner h]
  · unfold getInstanceLogs
    rw [getInstance_not_owner h]
  · unfold getInstanceStats
    rw [getInstance_not_owner h]

/-- Witness for C10: user 9 asking for instance 1 (owned by user 7) gets the
not-found answer from every operation, with the database untouched. -/
theorem c10_witness :
    getInstance dbRunX ogX 5 1 9 = ⟨.error .instanceNotFound, dbRunX, []⟩ ∧
    startInstance dbRunX olcX 5 1 9 = ⟨.error .instanceNotFound, dbRunX, []⟩ ∧
    stopInstance dbRunX olcX 5 1 9 = ⟨.error .instanceNotFound, dbRunX, []⟩ ∧
    restartInstance dbRunX olcX 5 1 9 = ⟨.error .instanceNotFound, dbRunX, []⟩ ∧
    deleteInstance dbRunX oDelX 5 1 9 = ⟨.error .instanceNotFound, dbRunX, []⟩ ∧
    getInstanceLogs dbRunX ⟨ogX, .ok "logs"⟩ 5 1 9 "100" =
      ⟨.error .instanceNotFound, dbRunX, []⟩ ∧
    getInstanceStats dbRunX ⟨ogX, .ok ⟨"c1", "running", "healthy", "", ""⟩⟩ 5 1 9 =
      ⟨.error .instanceNotFound, dbRunX, []⟩ :=
  c10_cross_tenant_isolation dbRunX 5 1 9 ogX olcX oDelX ⟨ogX, .ok "logs"⟩
    ⟨ogX, .ok ⟨"c1", "running", "healthy", "", ""⟩⟩ "100" (by decide)

/-! ## Routing rule builder: C9 -/

/-- A short constant differs from every key built around `r`. -/
theorem ne_const_affine {t p s : String} (r : String) (h : t.length < p.length + s.length) :
    t ≠ p ++ r ++ s := by
  intro he
  have hl := congrArg String.length he
  rw [String.length_append, String.length_append] at hl
  omega

/-- Keys built around the same `r` with different fixed-part lengths differ. -/
theorem ne_affine_len {p₁ s₁ p₂ s₂ : String} (r : String)
    (h : p₁.length + s₁.length ≠ p₂.length + s₂.length) :
    p₁ ++ r ++ s₁ ≠ p₂ ++ r ++ s₂ := by
  intro he
  have hl := congrArg String.length he
  rw [String.length_append, String.length_append, String.length_append,
    String.length_append] at hl
  omega

/-- Keys with the same fixed prefix and `r` but different suffixes differ. -/
theorem ne_affine_sfx {p s₁ s₂ : String} (r : String) (h : s₁.data ≠ s₂.data) :
    p ++ r ++ s₁ ≠ p ++ r ++ s₂ := by
  intro he
  have hd := congrArg String.data he
  rw [String.data_append, String.data_append, String.data_append, String.data_append,
    List.append_assoc, List.append_assoc] at hd
  exact h (List.append_cancel_left (List.append_cancel_left hd))

set_option maxHeartbeats 1600000 in
/-- Claim C9: for every router name, subdomain and Docker network, the
non-TLS labels carry exactly one host-match rule for the router, bound to
the insecure entrypoint `web`, no secure rule and no redirect middleware;
the TLS labels additionally bind the HTTP-to-HTTPS redirect middleware to
the same router and carry exactly one `-secure` host-match rule on the
secure entrypoint `websecure` with TLS termination enabled. -/
theorem c9_buildTraefikLabels :
    ∀ r s n : String,
      ((buildTraefikLabels r s n false).countP
          (fun kv => kv.1 == ruleKey r) = 1 ∧
        (buildTraefikLabels r s n false).lookup (ruleKey r) = some (hostRule s) ∧
        (buildTraefikLabels r s n false).lookup (entrypointsKey r) = some "web" ∧
        (buildTraefikLabels r s n false).countP
          (fun kv => kv.1 == secureRuleKey r) = 0 ∧
        (buildTraefikLabels r s n false).lookup (middlewaresKey r) = none) ∧
      ((buildTraefikLabels r s n true).countP
          (fun kv => kv.1 == ruleKey r) = 1 ∧
        (buildTraefikLabels r s n true).lookup (ruleKey r) = some (hostRule s) ∧
        (buildTraefikLabels r s n true).lookup (entrypointsKey r) = some "web" ∧
        (buildTraefikLabels r s n true).lookup (middlewaresKey r) =
          some (r ++ "-redirect") ∧
        (buildTraefikLabels r s n true).lookup (redirectSchemeKey r) = some "https" ∧
        (buildTraefikLabels r s n true).countP
          (fun kv => kv.1 == secureRuleKey r) = 1 ∧
        (buildTraefikLabels r s n true).lookup (secureRuleKey r) = some (hostRule s) ∧
        (buildTraefikLabels r s n true).lookup (secureEntrypointsKey r) =
          some "websecure" ∧
        (buildTraefikLabels r s n true).lookup (secureTlsKey r) = some "true") := by
  intro r s n
  have h1_2 : ("traefik.enable" : String) ≠ ruleKey r := by
    unfold ruleKey
    exact ne_const_affine r (by decide)
  have h1_3 : ("traefik.enable" : String) ≠ entrypointsKey r := by
    unfold entrypointsKey
    exact ne_const_affine r (by decide)
  have h1_4 : ("traefik.enable" : String) ≠ serviceKey r := by
    unfold serviceKey
    exact ne_const_affine r (by decide)
  have h1_6 : ("traefik.enable" : String) ≠ middlewaresKey r := by
    unfold middlewaresKey
    exact ne_const_affine r (by decide)
  have h1_7 : ("traefik.enable" : String) ≠ redirectSchemeKey r := by
    unfold redirectSchemeKey
    exact ne_const_affine r (by decide)
  have h1_8 : ("traefik.enable" : String) ≠ secureRuleKey r := by
    unfold secureRuleKey
    exact ne_const_affine r (by decide)
  have h1_9 : ("traefik.enable" : String) ≠ secureEntrypointsKey r := by
    unfold secureEntrypointsKey
    exact ne_const_affine r (by decide)
  have h1_10 : ("traefik.enable" : String) ≠ secureTlsKey r := by
    unfold secureTlsKey
    exact ne_const_affine r (by decide)
  have h2_3 : ruleKey r ≠ entrypointsKey r := by
    unfold ruleKey entrypointsKey
    exact ne_affine_len r (by decide)
  have h2_4 : ruleKey r ≠ serviceKey r := by
    unfold ruleKey serviceKey
    exact ne_affine_len r (by decide)
  have h2_5 : ("traefik.docker.network" : String) ≠ ruleKey r := by
    unfold ruleKey
    exact ne_const_affine r (by decide)
  have h2_6 : ruleKey r ≠ middlewaresKey r := by
    unfold ruleKey middlewaresKey
    exact ne_affine_len r (by decide)
  have h2_7 : ruleKey r ≠ redirectSchemeKey r := by
    unfold ruleKey redirectSchemeKey
    exact ne_affine_len r (by decide)
  have h2_8 : ruleKey r ≠ secureRuleKey r := by
    unfold ruleKey secureRuleKey
    exact ne_affine_len r (by decide)
  have h2_9 : ruleKey r ≠ secureEntrypointsKey r := by
    unfold ruleKey secureEntrypointsKey
    exact ne_affine_len r (by decide)
  have h2_10 : ruleKey r ≠ secureTlsKey r := by
    unfold ruleKey secureTlsKey
    exact ne_affine_len r (by decide)
  have h3_4 : entrypointsKey r ≠ serviceKey r := by
    unfold entrypointsKey serviceKey
    exact ne_affine_len r (by decide)
  have h3_5 : ("traefik.docker.network" : String) ≠ entrypointsKey r := by
    unfold entrypointsKey
    exact ne_const_affine r (by decide)
  have h3_6 : entrypointsKey r ≠ middlewaresKey r := by
    unfold entrypointsKey middlewaresKey
    exact ne_affine_sfx r (by decide)
  have h3_7 : entrypointsKey r ≠ redirectSchemeKey r := by
    unfold entrypointsKey redirectSchemeKey
    exact ne_affine_len r (by decide)
  have h3_8 : entrypointsKey r ≠ secureRuleKey r := by
    unfold entrypointsKey secureRuleKey
    exact ne_affine_sfx r (by decide)
  have h3_9 : entrypointsKey r ≠ secureEntrypointsKey r := by
    unfold entrypointsKey secureEntrypointsKey
    exact ne_affine_len r (by decide)
  have h3_10 : entrypointsKey r ≠ secureTlsKey r := by
    unfold entrypointsKey secureTlsKey
    exact ne_affine_len r (by decide)
  have h4_5 : ("traefik.docker.network" : String) ≠ serviceKey r := by
    unfold serviceKey
    exact ne_const_affine r (by decide)
  have h4_6 : serviceKey r ≠ middlewaresKey r := by
    unfold serviceKey middlewaresKey
    exact ne_affine_len r (by decide)
  have h4_7 : serviceKey r ≠ redirectSchemeKey r := by
    unfold serviceKey redirectSchemeKey
    exact ne_affine_len r (by decide)
  have h4_8 : serviceKey r ≠ secureRuleKey r := by
    unfold serviceKey secureRuleKey
    exact ne_affine_len r (by decide)
  have h4_9 : serviceKey r ≠ secureEntrypointsKey r := by
    unfold serviceKey secureEntrypointsKey
    exact ne_affine_len r (by decide)
  have h4_10 : serviceKey r ≠ secureTlsKey r := by
    unfold serviceKey secureTlsKey
    exact ne_affine_len r (by decide)
  have h5_6 : ("traefik.docker.network" : String) ≠ middlewaresKey r := by
    unfold middlewaresKey
    exact ne_const_affine r (by decide)
  have h5_7 : ("traefik.docker.network" : String) ≠ redirectSchemeKey r := by
    unfold redirectSchemeKey
    exact ne_const_affine r (by decide)
  have h5_8 : ("traefik.docker.network" : String) ≠ secureRuleKey r := by
    unfold secureRuleKey
    exact ne_const_affine r (by decide)
  have h5_9 : ("traefik.docker.network" : String) ≠ secureEntrypointsKey r := by
    unfold secureEntrypointsKey
    exact ne_const_affine r (by decide)
  have h5_10 : ("traefik.docker.network" : String) ≠ secureTlsKey r := by
    unfold secureTlsKey
    exact ne_const_affine r (by decide)
  have h6_7 : middlewaresKey r ≠ redirectSchemeKey r := by
    unfold middlewaresKey redirectSchemeKey
    exact ne_affine_len r (by decide)
  have h6_8 : middlewaresKey r ≠ secureRuleKey r := by
    unfold middlewaresKey secureRuleKey
    exact ne_affine_sfx r (by decide)
  have h6_9 : middlewaresKey r ≠ secureEntrypointsKey r := by
    unfold middlewaresKey secureEntrypointsKey
    exact ne_affine_len r (by decide)
  have h6_10 : middlewaresKey r ≠ secureTlsKey r := by
    unfold middlewaresKey secureTlsKey
    exact ne_affine_len r (by decide)
  have h7_8 : redirectSchemeKey r ≠ secureRuleKey r := by
    unfold redirectSchemeKey secureRuleKey
    exact ne_affine_len r (by decide)
  have h7_9 : redirectSchemeKey r ≠ secureEntrypointsKey r := by
    unfold redirectSchemeKey secureEntrypointsKey
    exact ne_affine_len r (by decide)
  have h7_10 : redirectSchemeKey r ≠ secureTlsKey r := by
    unfold redirectSchemeKey secureTlsKey
    exact ne_affine_len r (by decide)
  have h8_9 : secureRuleKey r ≠ secureEntrypointsKey r := by
    unfold secureRuleKey secureEntrypointsKey
    exact ne_affine_len r (by decide)
  have h8_10 : secureRuleKey r ≠ secureTlsKey r := by
    unfold secureRuleKey secureTlsKey
    exact ne_affine_len r (by decide)
  have h9_10 : secureEntrypointsKey r ≠ secureTlsKey r := by
    unfold secureEntrypointsKey secureTlsKey
    exact ne_affine_len r (by decide)
  refine ⟨⟨?_, ?_, ?_, ?_, ?_⟩, ?_, ?_, ?_, ?_, ?_, ?_, ?_, ?_, ?_⟩ <;>
    simp [buildTraefikLabels, List.lookup, List.countP_cons, List.countP_nil,
      beq_self_eq_true, beq_eq_false_iff_ne.mpr h1_2, beq_eq_false_iff_ne.mpr (Ne.symm h1_2), beq_eq_false_iff_ne.mpr h1_3, beq_eq_false_iff_ne.mpr (Ne.symm h1_3), beq_eq_false_iff_ne.mpr h1_4, beq_eq_false_iff_ne.mpr (Ne.symm h1_4), beq_eq_false_iff_ne.mpr h1_6, beq_eq_false_iff_ne.mpr (Ne.symm h1_6), beq_eq_false_iff_ne.mpr h1_7, beq_eq_false_iff_ne.mpr (Ne.symm h1_7), beq_eq_false_iff_ne.mpr h1_8, beq_eq_false_iff_ne.mpr (Ne.symm h1_8), beq_eq_false_iff_ne.mpr h1_9, beq_eq_false_iff_ne.mpr (Ne.symm h1_9), beq_eq_false_iff_ne.mpr h1_10, beq_eq_false_iff_ne.mpr (Ne.symm h1_10), beq_eq_false_iff_ne.mpr h2_3, beq_eq_false_iff_ne.mpr (Ne.symm h2_3), beq_eq_false_iff_ne.mpr h2_4, beq_eq_false_iff_ne.mpr (Ne.symm h2_4), beq_eq_false_iff_ne.mpr h2_5, beq_eq_false_iff_ne.mpr (Ne.symm h2_5), beq_eq_false_iff_ne.mpr h2_6, beq_eq_false_iff_ne.mpr (Ne.symm h2_6), beq_eq_false_iff_ne.mpr h2_7, beq_eq_false_iff_ne.mpr (Ne.symm h2_7), beq_eq_false_iff_ne.mpr h2_8, beq_eq_false_iff_ne.mpr (Ne.symm h2_8), beq_eq_false_iff_ne.mpr h2_9, beq_eq_false_iff_ne.mpr (Ne.symm h2_9), beq_eq_false_iff_ne.mpr h2_10, beq_eq_false_iff_ne.mpr (Ne.symm h2_10), beq_eq_false_iff_ne.mpr h3_4, beq_eq_false_iff_ne.mpr (Ne.symm h3_4), beq_eq_false_iff_ne.mpr h3_5, beq_eq_false_iff_ne.mpr (Ne.symm h3_5), beq_eq_false_iff_ne.mpr h3_6, beq_eq_false_iff_ne.mpr (Ne.symm h3_6), beq_eq_false_iff_ne.mpr h3_7, beq_eq_false_iff_ne.mpr (Ne.symm h3_7), beq_eq_false_iff_ne.mpr h3_8, beq_eq_false_iff_ne.mpr (Ne.symm h3_8), beq_eq_false_iff_ne.mpr h3_9, beq_eq_false_iff_ne.mpr (Ne.symm h3_9), beq_eq_false_iff_ne.mpr h3_10, beq_eq_false_iff_ne.mpr (Ne.symm h3_10), beq_eq_false_iff_ne.mpr h4_5, beq_eq_false_iff_ne.mpr (Ne.symm h4_5), beq_eq_false_iff_ne.mpr h4_6, beq_eq_false_iff_ne.mpr (Ne.symm h4_6), beq_eq_false_iff_ne.mpr h4_7, beq_eq_false_iff_ne.mpr (Ne.symm h4_7), beq_eq_false_iff_ne.mpr h4_8, beq_eq_false_iff_ne.mpr (Ne.symm h4_8), beq_eq_false_iff_ne.mpr h4_9, beq_eq_false_iff_ne.mpr (Ne.symm h4_9), beq_eq_false_iff_ne.mpr h4_10, beq_eq_false_iff_ne.mpr (Ne.symm h4_10), beq_eq_false_iff_ne.mpr h5_6, beq_eq_false_iff_ne.mpr (Ne.symm h5_6), beq_eq_false_iff_ne.mpr h5_7, beq_eq_false_iff_ne.mpr (Ne.symm h5_7), beq_eq_false_iff_ne.mpr h5_8, beq_eq_false_iff_ne.mpr (Ne.symm h5_8), beq_eq_false_iff_ne.mpr h5_9, beq_eq_false_iff_ne.mpr (Ne.symm h5_9), beq_eq_false_iff_ne.mpr h5_10, beq_eq_false_iff_ne.mpr (Ne.symm h5_10), beq_eq_false_iff_ne.mpr h6_7, beq_eq_false_iff_ne.mpr (Ne.symm h6_7), beq_eq_false_iff_ne.mpr h6_8, beq_eq_false_iff_ne.mpr (Ne.symm h6_8), beq_eq_false_iff_ne.mpr h6_9, beq_eq_false_iff_ne.mpr (Ne.symm h6_9), beq_eq_false_iff_ne.mpr h6_10, beq_eq_false_iff_ne.mpr (Ne.symm h6_10), beq_eq_false_iff_ne.mpr h7_8, beq_eq_false_iff_ne.mpr (Ne.symm h7_8), beq_eq_false_iff_ne.mpr h7_9, beq_eq_false_iff_ne.mpr (Ne.symm h7_9), beq_eq_false_iff_ne.mpr h7_10, beq_eq_false_iff_ne.mpr (Ne.symm h7_10), beq_eq_false_iff_ne.mpr h8_9, beq_eq_false_iff_ne.mpr (Ne.symm h8_9), beq_eq_false_iff_ne.mpr h8_10, beq_eq_false_iff_ne.mpr (Ne.symm h8_10), beq_eq_false_iff_ne.mpr h9_10, beq_eq_false_iff_ne.mpr (Ne.symm h9_10)]
